import Mathlib

/-!
Verification of the ground-pipe-visualization repository (src/app.py).

The program reads three slider values (water table depth, pipe top depth,
pipe diameter), derives three further scalars (app.py lines 18-22), and
builds a drawing plus a measurement summary (`create_visualization`,
app.py lines 28-143).  All arithmetic in the program is plain +, -, /2 on
slider values, which we embed over `ℚ`.  The ground-surface curve
(app.py line 39) is produced by `np.sin` plus `np.random.randn` noise;
those samples are floating point and stochastic, so the layout takes the
sampled curve as an explicit parameter and stores it unchanged, which is
all the claims about it need.
-/

namespace PipeViz

/-- Slider inputs of `main` (app.py lines 13-15). -/
structure DepthInputs where
  water_table_depth : ℚ
  pipe_top_depth : ℚ
  pipe_diameter : ℚ

/-- Slider ranges of app.py lines 13-15: water ∈ [1,10], top ∈ [0.5,9], diameter ∈ [0.1,2]. -/
def InRange (i : DepthInputs) : Prop :=
  1 ≤ i.water_table_depth ∧ i.water_table_depth ≤ 10 ∧
  (1/2 : ℚ) ≤ i.pipe_top_depth ∧ i.pipe_top_depth ≤ 9 ∧
  (1/10 : ℚ) ≤ i.pipe_diameter ∧ i.pipe_diameter ≤ 2

instance (i : DepthInputs) : Decidable (InRange i) := by
  unfold InRange; infer_instance

/-- Derived scalars of app.py lines 18-22. -/
structure DerivedDepths where
  pipe_middle_depth : ℚ
  pipe_bottom_depth : ℚ
  water_pipe_gap : ℚ

/-- Embeds app.py lines 18-22 (the derivation inlined in `main`; the spec
calls it `compute_derived`):
`pipe_middle_depth = pipe_top_depth + pipe_diameter/2`,
`pipe_bottom_depth = pipe_top_depth + pipe_diameter`,
`water_pipe_gap = water_table_depth - pipe_top_depth if water_table_depth > pipe_top_depth else 0`. -/
def compute_derived (i : DepthInputs) : DerivedDepths :=
  { pipe_middle_depth := i.pipe_top_depth + i.pipe_diameter / 2
    pipe_bottom_depth := i.pipe_top_depth + i.pipe_diameter
    water_pipe_gap :=
      if i.water_table_depth > i.pipe_top_depth
      then i.water_table_depth - i.pipe_top_depth else 0 }

/-- Fixed scene width (app.py line 34). -/
def ground_width : ℚ := 10

/-- Fixed maximal displayed depth (app.py line 35). -/
def max_depth : ℚ := 12

/-- Circle primitive, as passed to `plt.Circle` (app.py line 61). -/
structure Circle where
  center_x : ℚ
  center_y : ℚ
  radius : ℚ

/-- Double-headed measurement arrow: a vertical segment at abscissa `x`
from depth `y_from` to depth `y_to`, with its text label
(the `ax.annotate` / `ax.text` pairs of app.py lines 76-106). -/
structure Arrow where
  x : ℚ
  y_from : ℚ
  y_to : ℚ
  label : String

/-- Models the Python f-string formatting `f"{v:.1f} m"` used throughout
`create_visualization`: the value rounded to one decimal digit, followed by
the unit suffix.  (Python rounds ties of the underlying binary float; on
the values the claims test the two agree, and no claim depends on the
direction of a halfway tie.) -/
def fmt1 (q : ℚ) : String :=
  toString (round (q * 10) / 10) ++ "." ++
    (Int.toNat (round (q * 10) % 10)).digitChar.toString ++ " m"

/-- Summary message of app.py line 143, shown instead of a numeric gap. -/
def belowMsg : String := "Pipe is below water table"

/-- Layout produced by `create_visualization` (app.py lines 28-143):
the jitter-dependent ground curve, the water-table line, the pipe circle,
the four measurement arrows, the optional gap arrow, and the six
`st.metric` summary entries (label, displayed value). -/
structure Layout where
  ground_surface : List ℚ
  water_line_y : ℚ
  pipe_circle : Circle
  depth_arrows : List Arrow
  gap_arrow : Option Arrow
  summary : List (String × String)

/-- Embeds `create_visualization` (app.py lines 28-143).  `surface` is the
sampled ground curve of line 39 (sinusoid plus random jitter, produced
outside this pure core); it is stored verbatim and used nowhere else.
Arrow abscissas are the constants of lines 69-73; the circle is line 61;
the gap arrow is the `if water_pipe_gap > 0` block of lines 100-106;
the summary entries are the `st.metric` calls of lines 133-143. -/
def create_visualization (i : DepthInputs) (surface : List ℚ) : Layout :=
  let d := compute_derived i
  let pipe_x := ground_width / 2
  { ground_surface := surface
    water_line_y := i.water_table_depth
    pipe_circle := ⟨pipe_x, d.pipe_middle_depth, i.pipe_diameter / 2⟩
    depth_arrows :=
      [ ⟨3/2, 0, i.water_table_depth,
          "Water Table Depth\n" ++ fmt1 i.water_table_depth⟩,
        ⟨3, 0, i.pipe_top_depth,
          "Pipe Top Depth\n" ++ fmt1 i.pipe_top_depth⟩,
        ⟨9/2, 0, d.pipe_middle_depth,
          "Pipe Middle\n" ++ fmt1 d.pipe_middle_depth⟩,
        ⟨6, 0, d.pipe_bottom_depth,
          "Pipe Bottom\n" ++ fmt1 d.pipe_bottom_depth⟩ ]
    gap_arrow :=
      if d.water_pipe_gap > 0 then
        some ⟨8, i.pipe_top_depth, i.water_table_depth,
          "Gap\n" ++ fmt1 d.water_pipe_gap⟩
      else none
    summary :=
      [ ("Water Table Depth", fmt1 i.water_table_depth),
        ("Pipe Top Depth", fmt1 i.pipe_top_depth),
        ("Pipe Middle Depth", fmt1 d.pipe_middle_depth),
        ("Pipe Bottom Depth", fmt1 d.pipe_bottom_depth),
        ("Pipe Diameter", fmt1 i.pipe_diameter),
        ("Water-Pipe Gap",
          if d.water_pipe_gap > 0 then fmt1 d.water_pipe_gap else belowMsg) ] }

/-- The jitter-independent content of a layout: everything except the
sampled ground curve. -/
def measurementPart (L : Layout) :
    ℚ × Circle × List Arrow × Option Arrow × List (String × String) :=
  (L.water_line_y, L.pipe_circle, L.depth_arrows, L.gap_arrow, L.summary)

/-- The vertical segment at abscissa `x` spanning depths `y₁` to `y₂`
meets the open disk bounded by circle `c`. -/
def segmentHitsDiskInterior (x y₁ y₂ : ℚ) (c : Circle) : Prop :=
  ∃ y : ℚ, min y₁ y₂ ≤ y ∧ y ≤ max y₁ y₂ ∧
    (x - c.center_x) ^ 2 + (y - c.center_y) ^ 2 < c.radius ^ 2

/-- A measurement arrow meets the open disk bounded by circle `c`. -/
def arrowHitsDiskInterior (a : Arrow) (c : Circle) : Prop :=
  segmentHitsDiskInterior a.x a.y_from a.y_to c

/-- C1: for every input triple within the slider ranges, the derived depths
are `pipe_middle_depth = pipe_top_depth + pipe_diameter/2` and
`pipe_bottom_depth = pipe_top_depth + pipe_diameter`; in particular for
inputs (water=5.0, top=3.0, diameter=0.5) the result is middle=3.25,
bottom=3.5, gap=2.0. -/
theorem C1_derived_formulas (i : DepthInputs) (h : InRange i) :
    ((compute_derived i).pipe_middle_depth = i.pipe_top_depth + i.pipe_diameter / 2 ∧
     (compute_derived i).pipe_bottom_depth = i.pipe_top_depth + i.pipe_diameter) ∧
    ((compute_derived ⟨5, 3, 1/2⟩).pipe_middle_depth = 13/4 ∧
     (compute_derived ⟨5, 3, 1/2⟩).pipe_bottom_depth = 7/2 ∧
     (compute_derived ⟨5, 3, 1/2⟩).water_pipe_gap = 2) := by
  refine ⟨⟨rfl, rfl⟩, ?_, ?_, ?_⟩ <;> norm_num [compute_derived]

/-- Witness for C1 at the slider defaults (water=5, top=3, diameter=0.5). -/
theorem C1_derived_formulas_witness :
    (compute_derived ⟨5, 3, 1/2⟩).pipe_middle_depth = 13/4 :=
  (C1_derived_formulas ⟨5, 3, 1/2⟩ (by norm_num [InRange])).2.1

/-- Helper: the three clamp facts about `water_pipe_gap` (app.py line 22),
shared by several claims below. -/
theorem gap_spec (i : DepthInputs) :
    0 ≤ (compute_derived i).water_pipe_gap ∧
    ((compute_derived i).water_pipe_gap = 0 ↔
      i.water_table_depth ≤ i.pipe_top_depth) ∧
    (i.pipe_top_depth < i.water_table_depth →
      (compute_derived i).water_pipe_gap =
        i.water_table_depth - i.pipe_top_depth) := by
  unfold compute_derived
  dsimp only
  split_ifs with h
  · exact ⟨by linarith, ⟨fun he => by linarith, fun hle => by linarith⟩,
      fun _ => rfl⟩
  · refine ⟨le_refl 0, ⟨fun _ => by linarith [not_lt.mp h], fun _ => rfl⟩,
      fun hlt => absurd hlt h⟩

/-- C2: for every input, `water_pipe_gap ≥ 0`; `water_pipe_gap = 0` exactly
when `pipe_top_depth ≥ water_table_depth` (including the equality tie); and
`water_pipe_gap = water_table_depth - pipe_top_depth` whenever
`water_table_depth > pipe_top_depth`. -/
theorem C2_gap_clamp (i : DepthInputs) :
    0 ≤ (compute_derived i).water_pipe_gap ∧
    ((compute_derived i).water_pipe_gap = 0 ↔
      i.water_table_depth ≤ i.pipe_top_depth) ∧
    (i.pipe_top_depth < i.water_table_depth →
      (compute_derived i).water_pipe_gap =
        i.water_table_depth - i.pipe_top_depth) :=
  gap_spec i

/-- Witness for C2 at the boundary-equality input (water=5, top=5). -/
theorem C2_gap_clamp_witness :
    (compute_derived ⟨5, 5, 1⟩).water_pipe_gap = 0 :=
  (C2_gap_clamp ⟨5, 5, 1⟩).2.1.mpr (by norm_num)

/-- C3: for all valid inputs,
`pipe_bottom_depth - pipe_top_depth = pipe_diameter` and
`pipe_middle_depth = (pipe_top_depth + pipe_bottom_depth) / 2`. -/
theorem C3_algebraic_relations (i : DepthInputs) (h : InRange i) :
    (compute_derived i).pipe_bottom_depth - i.pipe_top_depth = i.pipe_diameter ∧
    (compute_derived i).pipe_middle_depth =
      (i.pipe_top_depth + (compute_derived i).pipe_bottom_depth) / 2 := by
  unfold compute_derived
  dsimp only
  constructor <;> ring

/-- Witness for C3 at the slider defaults. -/
theorem C3_algebraic_relations_witness :
    (compute_derived ⟨5, 3, 1/2⟩).pipe_bottom_depth - 3 = (1/2 : ℚ) :=
  (C3_algebraic_relations ⟨5, 3, 1/2⟩ (by norm_num [InRange])).1

/-- C8: the derived-depth computation is a deterministic pure function of
its three inputs, and the measurement content of the layout does not depend
on the sampled (jittered) ground-surface curve. -/
theorem C8_deterministic (i₁ i₂ : DepthInputs) (h : i₁ = i₂)
    (g₁ g₂ : List ℚ) :
    compute_derived i₁ = compute_derived i₂ ∧
    measurementPart (create_visualization i₁ g₁) =
      measurementPart (create_visualization i₂ g₂) := by
  subst h
  exact ⟨rfl, rfl⟩

/-- Witness for C8: identical inputs with different jitter samples give the
same measurement content. -/
theorem C8_deterministic_witness :
    measurementPart (create_visualization ⟨5, 3, 1/2⟩ []) =
      measurementPart (create_visualization ⟨5, 3, 1/2⟩ [7]) :=
  (C8_deterministic ⟨5, 3, 1/2⟩ ⟨5, 3, 1/2⟩ rfl [] [7]).2

/-- C9: for every input with `pipe_diameter > 0` the derived depths are
strictly ordered `pipe_top_depth < pipe_middle_depth < pipe_bottom_depth`. -/
theorem C9_strict_ordering (i : DepthInputs) (h : 0 < i.pipe_diameter) :
    i.pipe_top_depth < (compute_derived i).pipe_middle_depth ∧
    (compute_derived i).pipe_middle_depth <
      (compute_derived i).pipe_bottom_depth := by
  unfold compute_derived
  dsimp only
  constructor <;> linarith

/-- Witness for C9 at the slider defaults. -/
theorem C9_strict_ordering_witness :
    (3 : ℚ) < (compute_derived ⟨5, 3, 1/2⟩).pipe_middle_depth :=
  (C9_strict_ordering ⟨5, 3, 1/2⟩ (by norm_num)).1

/-- Helper: the gap arrow emitted when the gap is positive (app.py lines 100-106). -/
theorem gap_arrow_of_pos (i : DepthInputs) (g : List ℚ)
    (h : 0 < (compute_derived i).water_pipe_gap) :
    (create_visualization i g).gap_arrow =
      some ⟨8, i.pipe_top_depth, i.water_table_depth,
        "Gap\n" ++ fmt1 (compute_derived i).water_pipe_gap⟩ := by
  unfold create_visualization
  dsimp only
  rw [if_pos h]

/-- Helper: no gap arrow when the gap is not positive. -/
theorem gap_arrow_of_nonpos (i : DepthInputs) (g : List ℚ)
    (h : ¬ 0 < (compute_derived i).water_pipe_gap) :
    (create_visualization i g).gap_arrow = none := by
  unfold create_visualization
  dsimp only
  rw [if_neg h]

/-- C4: the layout emits a gap arrow and label if and only if
`water_pipe_gap > 0`, and when emitted the arrow runs from depth
`pipe_top_depth` to depth `water_table_depth`, labelled with the gap value. -/
theorem C4_gap_arrow (i : DepthInputs) (g : List ℚ) :
    ((create_visualization i g).gap_arrow ≠ none ↔
      0 < (compute_derived i).water_pipe_gap) ∧
    (∀ a : Arrow, (create_visualization i g).gap_arrow = some a →
      a.x = 8 ∧ a.y_from = i.pipe_top_depth ∧ a.y_to = i.water_table_depth ∧
      a.label = "Gap\n" ++ fmt1 (compute_derived i).water_pipe_gap) := by
  by_cases h : 0 < (compute_derived i).water_pipe_gap
  · rw [gap_arrow_of_pos i g h]
    refine ⟨⟨fun _ => h, fun _ => by simp⟩, fun a ha => ?_⟩
    obtain rfl := Option.some_injective _ ha.symm
    exact ⟨rfl, rfl, rfl, rfl⟩
  · rw [gap_arrow_of_nonpos i g h]
    exact ⟨⟨fun hn => absurd rfl hn, fun hp => absurd hp h⟩,
      fun a ha => by simp at ha⟩

/-- Witness for C4 at the slider defaults, where the gap is 2 > 0. -/
theorem C4_gap_arrow_witness :
    (create_visualization ⟨5, 3, 1/2⟩ []).gap_arrow ≠ none ∧
    (Arrow.mk 8 3 5
        ("Gap\n" ++ fmt1 (compute_derived ⟨5, 3, 1/2⟩).water_pipe_gap)).y_to
      = 5 := by
  have h := C4_gap_arrow ⟨5, 3, 1/2⟩ []
  have hpos : 0 < (compute_derived ⟨5, 3, 1/2⟩).water_pipe_gap := by
    norm_num [compute_derived]
  refine ⟨h.1.mpr hpos, ?_⟩
  exact (h.2 _ (gap_arrow_of_pos ⟨5, 3, 1/2⟩ [] hpos)).2.2.1

/-- C5: for every in-range input the pipe primitive is a circle of radius
`pipe_diameter/2` centered at `(ground_width/2, pipe_middle_depth)`; in
particular for diameter=0.5, top=3.0 the circle has radius 0.25 and center
y = 3.25. -/
theorem C5_pipe_circle (i : DepthInputs) (g : List ℚ) (h : InRange i) :
    (create_visualization i g).pipe_circle =
      ⟨ground_width / 2, (compute_derived i).pipe_middle_depth,
        i.pipe_diameter / 2⟩ ∧
    (create_visualization ⟨5, 3, 1/2⟩ g).pipe_circle.radius = 1/4 ∧
    (create_visualization ⟨5, 3, 1/2⟩ g).pipe_circle.center_y = 13/4 := by
  refine ⟨rfl, ?_, ?_⟩ <;> norm_num [create_visualization, compute_derived]

/-- Witness for C5 at the slider defaults. -/
theorem C5_pipe_circle_witness :
    (create_visualization ⟨5, 3, 1/2⟩ []).pipe_circle.radius = 1/4 :=
  (C5_pipe_circle ⟨5, 3, 1/2⟩ [] (by norm_num [InRange])).2.1

/-- C7: the measurement summary presents six labeled metrics, the first
five formatted to one decimal place with unit suffix "m", and the sixth
showing the formatted gap when positive and the below-water message
otherwise; `fmt1` always produces a string with exactly one decimal digit
followed by " m". -/
theorem C7_summary_metrics (i : DepthInputs) (g : List ℚ) :
    ((create_visualization i g).summary.length = 6) ∧
    ((create_visualization i g).summary.map Prod.fst =
      ["Water Table Depth", "Pipe Top Depth", "Pipe Middle Depth",
       "Pipe Bottom Depth", "Pipe Diameter", "Water-Pipe Gap"]) ∧
    ((create_visualization i g).summary.map Prod.snd =
      [fmt1 i.water_table_depth, fmt1 i.pipe_top_depth,
       fmt1 (compute_derived i).pipe_middle_depth,
       fmt1 (compute_derived i).pipe_bottom_depth,
       fmt1 i.pipe_diameter,
       if 0 < (compute_derived i).water_pipe_gap
       then fmt1 (compute_derived i).water_pipe_gap else belowMsg]) ∧
    (∀ q : ℚ, ∃ whole frac : String,
      fmt1 q = whole ++ "." ++ frac ++ " m" ∧ frac.length = 1) := by
  refine ⟨rfl, rfl, rfl, fun q => ?_⟩
  exact ⟨toString (round (q * 10) / 10),
    (Int.toNat (round (q * 10) % 10)).digitChar.toString, rfl,
    Char.length_toString _⟩

/-- Helper: every formatted measurement ends in "m", so it is never the
below-water message (which ends in "e"). -/
theorem fmt1_ne_belowMsg (q : ℚ) : fmt1 q ≠ belowMsg := by
  intro h
  have hd : (fmt1 q).data.getLast? = belowMsg.data.getLast? := by rw [h]
  have hm : (fmt1 q).data.getLast? = some 'm' := by
    unfold fmt1
    rw [String.data_append, List.getLast?_append_of_ne_nil]
    · rfl
    · simp [String.data]
  rw [hm] at hd
  have he : belowMsg.data.getLast? = some 'e' := by rfl
  rw [he] at hd
  simp at hd

/-- Helper: the sixth summary entry, by cases on the gap. -/
theorem summary_gap_entry (i : DepthInputs) (g : List ℚ) :
    (create_visualization i g).summary.get? 5 =
      some ("Water-Pipe Gap",
        if 0 < (compute_derived i).water_pipe_gap
        then fmt1 (compute_derived i).water_pipe_gap else belowMsg) := rfl

/-- C10: the summary shows the "Pipe is below water table" message exactly
when the gap is 0, i.e. when `pipe_top_depth ≥ water_table_depth`,
including at exact equality; otherwise the numeric gap is shown. -/
theorem C10_below_message (i : DepthInputs) (g : List ℚ) :
    ((create_visualization i g).summary.get? 5 =
        some ("Water-Pipe Gap", belowMsg) ↔
      i.water_table_depth ≤ i.pipe_top_depth) ∧
    (i.pipe_top_depth < i.water_table_depth →
      (create_visualization i g).summary.get? 5 =
        some ("Water-Pipe Gap",
          fmt1 (compute_derived i).water_pipe_gap)) := by
  have hgap := gap_spec i
  rw [summary_gap_entry i g]
  by_cases h : 0 < (compute_derived i).water_pipe_gap
  · rw [if_pos h]
    constructor
    · constructor
      · intro hmsg
        exact absurd (Option.some_injective _ hmsg |> congrArg Prod.snd)
          (fmt1_ne_belowMsg _)
      · intro hle
        have h0 : (compute_derived i).water_pipe_gap = 0 := hgap.2.1.mpr hle
        exact absurd h0 (ne_of_gt h)
    · intro _
      rfl
  · rw [if_neg h]
    have h0 : (compute_derived i).water_pipe_gap = 0 :=
      le_antisymm (not_lt.mp h) hgap.1
    constructor
    · exact ⟨fun _ => hgap.2.1.mp h0, fun _ => rfl⟩
    · intro hlt
      have heq := hgap.2.2 hlt
      exact absurd (by linarith : (0:ℚ) < (compute_derived i).water_pipe_gap) h

/-- Witness for C10 at the boundary-equality and default inputs. -/
theorem C10_below_message_witness :
    (create_visualization ⟨5, 5, 1⟩ []).summary.get? 5 =
      some ("Water-Pipe Gap", belowMsg) ∧
    (create_visualization ⟨5, 3, 1/2⟩ []).summary.get? 5 =
      some ("Water-Pipe Gap",
        fmt1 (compute_derived ⟨5, 3, 1/2⟩).water_pipe_gap) :=
  ⟨(C10_below_message ⟨5, 5, 1⟩ []).1.mpr (by norm_num),
   (C10_below_message ⟨5, 3, 1/2⟩ []).2 (by norm_num)⟩

/-- Helper: the pipe circle of the layout, in closed form. -/
theorem pipe_circle_eq (i : DepthInputs) (g : List ℚ) :
    (create_visualization i g).pipe_circle =
      ⟨ground_width / 2, (compute_derived i).pipe_middle_depth,
        i.pipe_diameter / 2⟩ := rfl

/-- Helper: the four measurement arrows of the layout, in closed form. -/
theorem depth_arrows_eq (i : DepthInputs) (g : List ℚ) :
    (create_visualization i g).depth_arrows =
      [ ⟨3/2, 0, i.water_table_depth,
          "Water Table Depth\n" ++ fmt1 i.water_table_depth⟩,
        ⟨3, 0, i.pipe_top_depth,
          "Pipe Top Depth\n" ++ fmt1 i.pipe_top_depth⟩,
        ⟨9/2, 0, (compute_derived i).pipe_middle_depth,
          "Pipe Middle\n" ++ fmt1 (compute_derived i).pipe_middle_depth⟩,
        ⟨6, 0, (compute_derived i).pipe_bottom_depth,
          "Pipe Bottom\n" ++ fmt1 (compute_derived i).pipe_bottom_depth⟩ ] := rfl

/-- C6 counterexample: at the in-range input (water=5, top=3, diameter=2)
the pipe-middle arrow (abscissa 4.5, running from depth 0 to depth 4)
passes through the interior of the pipe circle (center (5,4), radius 1),
so the arrows do not avoid collision with the pipe shape. -/
theorem C6_arrow_hits_pipe :
    InRange ⟨5, 3, 2⟩ ∧
    ((create_visualization ⟨5, 3, 2⟩ []).depth_arrows.map
        (fun a => (a.x, a.y_from, a.y_to))).get? 2 = some (9/2, 0, 4) ∧
    segmentHitsDiskInterior (9/2) 0 4
      (create_visualization ⟨5, 3, 2⟩ []).pipe_circle := by
  refine ⟨by norm_num [InRange], ?_, ?_⟩
  · rw [depth_arrows_eq]
    norm_num [compute_derived]
  · rw [pipe_circle_eq]
    refine ⟨4, min_le_right 0 4, le_max_right 0 4, ?_⟩
    norm_num [compute_derived, ground_width]

/-- C6 (amended): for every in-range input the layout has one double-headed
arrow per measurement, each running from depth 0 to its target depth at a
distinct horizontal offset (1.5, 3.0, 4.5, 6.0), so no two arrows overlap;
the arrows avoid the interior of the pipe circle exactly when
`pipe_diameter ≤ 1` (for larger diameters the pipe-middle arrow enters the
pipe circle). -/
theorem C6_arrows_layout (i : DepthInputs) (g : List ℚ) (h : InRange i) :
    ((create_visualization i g).depth_arrows.map Arrow.x = [3/2, 3, 9/2, 6]) ∧
    ((create_visualization i g).depth_arrows.map Arrow.x).Pairwise
      (fun a b => a ≠ b) ∧
    ((create_visualization i g).depth_arrows.map
        (fun a => (a.y_from, a.y_to)) =
      [(0, i.water_table_depth), (0, i.pipe_top_depth),
       (0, (compute_derived i).pipe_middle_depth),
       (0, (compute_derived i).pipe_bottom_depth)]) ∧
    ((∀ a ∈ (create_visualization i g).depth_arrows,
        ¬ arrowHitsDiskInterior a (create_visualization i g).pipe_circle) ↔
      i.pipe_diameter ≤ 1) := by
  obtain ⟨hw1, hw2, ht1, ht2, hd1, hd2⟩ := h
  refine ⟨rfl, ?_, rfl, ?_⟩
  · rw [depth_arrows_eq]
    norm_num [List.pairwise_cons]
  · constructor
    · intro hall
      by_contra hdgt
      push_neg at hdgt
      have hmem : (⟨9/2, 0, (compute_derived i).pipe_middle_depth,
          "Pipe Middle\n" ++ fmt1 (compute_derived i).pipe_middle_depth⟩ :
            Arrow) ∈ (create_visualization i g).depth_arrows := by
        rw [depth_arrows_eq]
        simp
      refine hall _ hmem ?_
      rw [pipe_circle_eq]
      refine ⟨(compute_derived i).pipe_middle_depth,
        min_le_right _ _, le_max_right _ _, ?_⟩
      simp only [ground_width]
      nlinarith [hdgt]
    · intro hdle a hmem hhit
      rw [pipe_circle_eq] at hhit
      rw [depth_arrows_eq] at hmem
      simp only [List.mem_cons, List.not_mem_nil, or_false] at hmem
      have hr : (i.pipe_diameter / 2) ^ 2 ≤ 1/4 := by nlinarith
      rcases hmem with rfl | rfl | rfl | rfl <;>
        · obtain ⟨y, hy1, hy2, hlt⟩ := hhit
          simp only [ground_width] at hlt
          nlinarith [sq_nonneg (y - (compute_derived i).pipe_middle_depth),
            hlt, hr]

/-- Witness for C6 (amended) at the slider defaults, diameter 0.5 ≤ 1. -/
theorem C6_arrows_layout_witness :
    (create_visualization ⟨5, 3, 1/2⟩ []).depth_arrows.map Arrow.x
      = [3/2, 3, 9/2, 6] :=
  (C6_arrows_layout ⟨5, 3, 1/2⟩ [] (by norm_num [InRange])).1

end PipeViz

